import Mathlib

/-!
Shallow embedding of the RustNES emulator core (CPU, PPU, bus, joypad,
cartridge parser) and proofs about it.  Machine integers (`u8`, `u16`,
`usize`) are embedded as `Nat` with explicit `% 2^w` at the points where
the source performs wrapping arithmetic; fallible operations (array
indexing that can go out of bounds, `panic!`) return `Option`.
-/

namespace RustNES

/-! ## PPU registers (`src/ppu/registers/…`) -/

/-- `StatusRegister` from `src/ppu/registers/status.rs`: an 8-bit bitflags
value.  `bits` is the raw `u8`. -/
structure StatusRegister where
  bits : Nat
  deriving Repr, DecidableEq

namespace StatusRegister

def SPRITE_OVERFLOW : Nat := 0x20
def SPRITE_ZERO_HIT : Nat := 0x40
def VERTICAL_BLANK : Nat := 0x80

def new : StatusRegister := ⟨0⟩

/-- bitflags `set`: insert the mask when `b`, remove it otherwise
(`remove` is `bits &= !mask`, i.e. `bits &&& (0xFF ^^^ mask)` on `u8`). -/
def setFlag (s : StatusRegister) (mask : Nat) (b : Bool) : StatusRegister :=
  if b then ⟨s.bits ||| mask⟩ else ⟨s.bits &&& (0xFF ^^^ mask)⟩

def setSpriteZeroHit (s : StatusRegister) (hit : Bool) : StatusRegister :=
  s.setFlag SPRITE_ZERO_HIT hit

def setVerticalBlank (s : StatusRegister) (blank : Bool) : StatusRegister :=
  s.setFlag VERTICAL_BLANK blank

def resetVerticalBlank (s : StatusRegister) : StatusRegister :=
  ⟨s.bits &&& (0xFF ^^^ VERTICAL_BLANK)⟩

/-- bitflags `contains` for a mask: `bits & mask == mask`. -/
def isInSpriteZeroHit (s : StatusRegister) : Bool :=
  s.bits &&& SPRITE_ZERO_HIT = SPRITE_ZERO_HIT

def isInVerticalBlank (s : StatusRegister) : Bool :=
  s.bits &&& VERTICAL_BLANK = VERTICAL_BLANK

end StatusRegister

/-- `ControlRegister` from `src/ppu/registers/control.rs`. -/
structure ControlRegister where
  bits : Nat
  deriving Repr, DecidableEq

namespace ControlRegister

def VRAM_ADD_INC : Nat := 0x04
def GENERATE_NMI : Nat := 0x80

def new : ControlRegister := ⟨0⟩

def vramAddrIncrement (c : ControlRegister) : Nat :=
  if ¬(c.bits &&& VRAM_ADD_INC = VRAM_ADD_INC) then 1 else 32

/-- `update`: `from_bits_truncate` keeps the low 8 bits of the written byte. -/
def update (_c : ControlRegister) (data : Nat) : ControlRegister :=
  ⟨data % 256⟩

def generateNmi (c : ControlRegister) : Bool :=
  c.bits &&& GENERATE_NMI = GENERATE_NMI

end ControlRegister

/-- `MaskRegister` from `src/ppu/registers/mask.rs` (only the pieces the
PPU core reads). -/
structure MaskRegister where
  bits : Nat
  deriving Repr, DecidableEq

namespace MaskRegister

def SHOW_SPRITES : Nat := 0x10

def new : MaskRegister := ⟨0⟩

def update (_m : MaskRegister) (data : Nat) : MaskRegister :=
  ⟨data % 256⟩

def showSprites (m : MaskRegister) : Bool :=
  m.bits &&& SHOW_SPRITES = SHOW_SPRITES

end MaskRegister

/-- Modelled from the spec: `src/ppu/registers/addr.rs` is not present under
`src/` (only its users are).  Per spec §4.3 `PPUADDR` is a write-only
double-write latch: the first write supplies the high byte (the address is
kept inside the 14-bit mirror, i.e. masked to `0x3F` high bits), the second
the low byte; `get()` yields the 14-bit address; `increment` adds the
configured step and wraps within the mirror; a `PPUSTATUS` read resets the
latch so the next write is interpreted as the high byte. -/
structure AddrRegister where
  hi : Nat
  lo : Nat
  hiPtr : Bool
  deriving Repr, DecidableEq

namespace AddrRegister

def new : AddrRegister := ⟨0, 0, true⟩

def get (a : AddrRegister) : Nat := (a.hi <<< 8) ||| a.lo

def update (a : AddrRegister) (data : Nat) : AddrRegister :=
  let a := if a.hiPtr then { a with hi := (data % 256) &&& 0x3F } else { a with lo := data % 256 }
  { a with hiPtr := ¬a.hiPtr }

def increment (a : AddrRegister) (inc : Nat) : AddrRegister :=
  let total := (a.get + inc) &&& 0x3FFF
  { a with hi := total >>> 8, lo := total &&& 0xFF }

def resetLatch (a : AddrRegister) : AddrRegister :=
  { a with hiPtr := true }

end AddrRegister

/-- Modelled from the spec: `src/ppu/registers/scroll.rs` is not present
under `src/`.  Per spec §4.3 `PPUSCROLL` is a write-only double-write
register: first write → `scroll_x`, second → `scroll_y`, latch toggled;
a `PPUSTATUS` read resets the latch. -/
structure ScrollRegister where
  x : Nat
  y : Nat
  latch : Bool
  deriving Repr, DecidableEq

namespace ScrollRegister

def new : ScrollRegister := ⟨0, 0, false⟩

def write (s : ScrollRegister) (data : Nat) : ScrollRegister :=
  let s := if ¬s.latch then { s with x := data % 256 } else { s with y := data % 256 }
  { s with latch := ¬s.latch }

def resetLatch (s : ScrollRegister) : ScrollRegister :=
  { s with latch := false }

end ScrollRegister

/-! ## PPU core (`src/ppu/mod.rs`) -/

/-- `Mirroring` from `src/cartridge.rs`. -/
inductive Mirroring where
  | HORIZONTAL
  | VERTICAL
  | FOURSCREEN
  deriving Repr, DecidableEq

/-- `NesPPU` from `src/ppu/mod.rs`.  The fixed-size byte arrays
(`palette_table: [u8; 32]`, `vram: [u8; 2048]`, `oam_data: [u8; 256]`)
are embedded as total functions `Nat → Nat`; every read of them in the
operations below either carries an explicit bounds guard (returning
`none` where Rust would panic) or is statically in bounds (`u8` index
into a 256-entry array). -/
structure NesPPU where
  chrRom : List Nat
  paletteTable : Nat → Nat
  vram : Nat → Nat
  oamData : Nat → Nat
  oamAddr : Nat
  mirroring : Mirroring
  internalDataBuffer : Nat
  addr : AddrRegister
  ctrl : ControlRegister
  mask : MaskRegister
  scroll : ScrollRegister
  status : StatusRegister
  scanline : Nat
  cycles : Nat
  nmiInterrupt : Option Nat

/-- Pointwise update of an embedded byte array. -/
def updFn (f : Nat → Nat) (k v : Nat) : Nat → Nat :=
  fun j => if j = k then v else f j

namespace NesPPU

def new (chrRom : List Nat) (mirroring : Mirroring) : NesPPU where
  chrRom := chrRom
  paletteTable := fun _ => 0
  vram := fun _ => 0
  oamData := fun _ => 0
  oamAddr := 0
  mirroring := mirroring
  internalDataBuffer := 0
  addr := AddrRegister.new
  ctrl := ControlRegister.new
  mask := MaskRegister.new
  scroll := ScrollRegister.new
  status := StatusRegister.new
  scanline := 0
  cycles := 0
  nmiInterrupt := none

/-- `is_sprite_0_hit` from `src/ppu/mod.rs`. -/
def isSprite0Hit (p : NesPPU) (cycle : Nat) : Bool :=
  (p.oamData 0 = p.scanline) && (p.oamData 3 ≤ cycle) && p.mask.showSprites

/-- `NesPPU::tick` from `src/ppu/mod.rs:75`.  Returns the state paired
with the `bool` result (`true` = frame complete). -/
def tick (p : NesPPU) (cycle : Nat) : NesPPU × Bool :=
  let p0 : NesPPU := { p with cycles := p.cycles + cycle }
  if p0.cycles ≥ 341 then
    let p1 : NesPPU :=
      if p0.isSprite0Hit p0.cycles then
        { p0 with status := p0.status.setSpriteZeroHit true }
      else p0
    let p2 : NesPPU := { p1 with cycles := p1.cycles - 341, scanline := p1.scanline + 1 }
    let p3 : NesPPU :=
      if p2.scanline = 241 then
        let q : NesPPU :=
          { p2 with status := (p2.status.setVerticalBlank true).setSpriteZeroHit false }
        if q.ctrl.generateNmi then { q with nmiInterrupt := some 1 } else q
      else p2
    if p3.scanline ≥ 262 then
      ({ p3 with
          scanline := 0
          nmiInterrupt := none
          status := ((p3.status.setSpriteZeroHit false).resetVerticalBlank) }, true)
    else (p3, false)
  else (p0, false)

/-- `poll_nmi_interrupt` (`Option::take`). -/
def pollNmiInterrupt (p : NesPPU) : Option Nat × NesPPU :=
  (p.nmiInterrupt, { p with nmiInterrupt := none })

/-- `increment_vram_addr`. -/
def incrementVramAddr (p : NesPPU) : NesPPU :=
  { p with addr := p.addr.increment p.ctrl.vramAddrIncrement }

/-- `mirror_vram_addr` from `src/ppu/mod.rs:119`. -/
def mirrorVramAddr (p : NesPPU) (addr : Nat) : Nat :=
  let mirroredVram := addr &&& 0x2FFF
  let vramIndex := mirroredVram - 0x2000
  let nameTable := vramIndex / 0x0400
  match p.mirroring, nameTable with
  | Mirroring.VERTICAL, 2 => vramIndex - 0x0800
  | Mirroring.VERTICAL, 3 => vramIndex - 0x0800
  | Mirroring.HORIZONTAL, 3 => vramIndex - 0x0800
  | Mirroring.HORIZONTAL, 2 => vramIndex - 0x0400
  | Mirroring.HORIZONTAL, 1 => vramIndex - 0x0400
  | _, _ => vramIndex

/-- `write_to_ppu_addr`. -/
def writeToPpuAddr (p : NesPPU) (data : Nat) : NesPPU :=
  { p with addr := p.addr.update data }

/-- `write_to_ctrl` from `src/ppu/mod.rs:139`. -/
def writeToCtrl (p : NesPPU) (data : Nat) : NesPPU :=
  let preNmiStatus := p.ctrl.generateNmi
  let p1 : NesPPU := { p with ctrl := p.ctrl.update data }
  if !preNmiStatus && p1.ctrl.generateNmi && p1.status.isInVerticalBlank then
    { p1 with nmiInterrupt := some 1 }
  else p1

/-- `read_data` from `src/ppu/mod.rs:147`.  Returns `none` where the Rust
code panics (the unusable `0x3000–0x3EFF` window, addresses past `0x3FFF`,
and any out-of-bounds array index). -/
def readData (p : NesPPU) : Option (Nat × NesPPU) :=
  let addr := p.addr.get
  let p1 : NesPPU := p.incrementVramAddr
  if addr ≤ 0x1FFF then
    match p1.chrRom.get? addr with
    | some v => some (p1.internalDataBuffer, { p1 with internalDataBuffer := v })
    | none => none
  else if addr ≤ 0x2FFF then
    let idx := p1.mirrorVramAddr addr
    if idx < 2048 then
      some (p1.internalDataBuffer, { p1 with internalDataBuffer := p1.vram idx })
    else none
  else if addr ≤ 0x3EFF then none
  else if addr = 0x3F10 ∨ addr = 0x3F14 ∨ addr = 0x3F18 ∨ addr = 0x3F1C then
    let addMirror := addr - 0x10
    if addMirror &&& 0x3F00 < 32 then some (p1.paletteTable (addMirror &&& 0x3F00), p1)
    else none
  else if addr ≤ 0x3FFF then
    if addr &&& 0x1F < 32 then some (p1.paletteTable (addr &&& 0x1F), p1)
    else none
  else none

/-- `write_to_data` from `src/ppu/mod.rs:171`.  Returns `none` where the
Rust code panics; the CHR-ROM branch merely logs and leaves the state
unchanged before the address increment. -/
def writeToData (p : NesPPU) (data : Nat) : Option NesPPU :=
  let addr := p.addr.get
  let written : Option NesPPU :=
    if addr ≤ 0x1FFF then some p
    else if addr ≤ 0x2FFF then
      let idx := p.mirrorVramAddr addr
      if idx < 2048 then some { p with vram := updFn p.vram idx data } else none
    else if addr ≤ 0x3EFF then none
    else if addr = 0x3F10 ∨ addr = 0x3F14 ∨ addr = 0x3F18 ∨ addr = 0x3F1C then
      let addMirror := addr - 0x10
      if addMirror - 0x3F00 < 32 then
        some { p with paletteTable := updFn p.paletteTable (addMirror - 0x3F00) data }
      else none
    else if addr ≤ 0x3FFF then
      if addr - 0x3F00 < 32 then
        some { p with paletteTable := updFn p.paletteTable (addr - 0x3F00) data }
      else none
    else none
  written.map (·.incrementVramAddr)

/-- `write_to_mask`. -/
def writeToMask (p : NesPPU) (data : Nat) : NesPPU :=
  { p with mask := p.mask.update data }

/-- `read_status` from `src/ppu/mod.rs:193`. -/
def readStatus (p : NesPPU) : Nat × NesPPU :=
  (p.status.bits,
    { p with
        status := p.status.resetVerticalBlank
        addr := p.addr.resetLatch
        scroll := p.scroll.resetLatch })

/-- `write_to_oam_addr`. -/
def writeToOamAddr (p : NesPPU) (data : Nat) : NesPPU :=
  { p with oamAddr := data }

/-- `write_to_oam_data`. -/
def writeToOamData (p : NesPPU) (data : Nat) : NesPPU :=
  { p with
      oamData := updFn p.oamData p.oamAddr data
      oamAddr := (p.oamAddr + 1) % 256 }

/-- `read_oam_data`. -/
def readOamData (p : NesPPU) : Nat :=
  p.oamData p.oamAddr

/-- `write_to_scroll`. -/
def writeToScroll (p : NesPPU) (data : Nat) : NesPPU :=
  { p with scroll := p.scroll.write data }

/-- One iteration of the `write_to_oam_dma` loop body. -/
def oamDmaStep (p : NesPPU) (v : Nat) : NesPPU :=
  { p with
      oamData := updFn p.oamData p.oamAddr v
      oamAddr := (p.oamAddr + 1) % 256 }

/-- `write_to_oam_dma` from `src/ppu/mod.rs:218`: iterate over the 256
buffer bytes in order, storing each at the OAM cursor and incrementing the
cursor with 8-bit wrap. -/
def writeToOamDma (p : NesPPU) (data : Nat → Nat) : NesPPU :=
  (List.range 256).foldl (fun q i => q.oamDmaStep (data i)) p

end NesPPU

/-! ## Joypad (`src/joypad.rs`) -/

/-- `Joypad` from `src/joypad.rs`.  `buttonStatus` is the raw `u8`
bitflags value (bit 0 = A … bit 7 = RIGHT). -/
structure Joypad where
  strobe : Bool
  buttonIndex : Nat
  buttonStatus : Nat
  deriving Repr, DecidableEq

namespace Joypad

def new : Joypad := ⟨false, 0, 0⟩

/-- `Joypad::write`. -/
def write (j : Joypad) (value : Nat) : Joypad :=
  let strobe := value &&& 0x01 = 0x01
  if strobe then { j with strobe := strobe, buttonIndex := 0 }
  else { j with strobe := strobe }

/-- `Joypad::read`: returns the bit at the cursor (or 1 past the eighth
read) and post-increments the cursor unless the strobe is held. -/
def read (j : Joypad) : Nat × Joypad :=
  if j.buttonIndex > 7 then (1, j)
  else
    let response := (j.buttonStatus &&& (1 <<< j.buttonIndex)) >>> j.buttonIndex
    if !j.strobe then (response, { j with buttonIndex := j.buttonIndex + 1 })
    else (response, j)

/-- The joypad state after `n` successive `read()` calls. -/
def readN (j : Joypad) : Nat → Joypad
  | 0 => j
  | n + 1 => (readN j n).read.2

end Joypad

/-! ## Cartridge (`src/cartridge.rs`) -/

def NES_TAG : List Nat := [0x4E, 0x45, 0x53, 0x1A]
def PRG_ROM_PAGE_SIZE : Nat := 16384
def CHR_ROM_PAGE_SIZE : Nat := 8192

structure Rom where
  prgRom : List Nat
  chrRom : List Nat
  mapper : Nat
  mirroring : Mirroring
  deriving Repr, DecidableEq

namespace Rom

/-- `Rom::new` from `src/cartridge.rs:20`.  The outer `Option` is `none`
exactly where the Rust code would panic on an out-of-bounds slice or
index; otherwise the `Except` carries the source's `Result`. -/
def new (raw : List Nat) : Option (Except String Rom) :=
  if raw.length < 4 then none
  else if raw.take 4 ≠ NES_TAG then some (Except.error "Invalid NES file")
  else
    match raw.get? 7, raw.get? 6 with
    | some h7, some h6 =>
      let mapper := (h7 &&& 0xF0) ||| (h6 >>> 4)
      let inesVersion := (h7 >>> 2) &&& 0x3
      if inesVersion ≠ 0 then some (Except.error "Unsupported iNES version")
      else
        match raw.get? 4, raw.get? 5 with
        | some h4, some h5 =>
          let fourScreen := h6 &&& 0x8 ≠ 0
          let verticalMirroring := h6 &&& 0x1 ≠ 0
          let mirroring :=
            if fourScreen then Mirroring.FOURSCREEN
            else if verticalMirroring then Mirroring.VERTICAL
            else Mirroring.HORIZONTAL
          let prgRomSize := h4 * PRG_ROM_PAGE_SIZE
          let chrRomSize := h5 * CHR_ROM_PAGE_SIZE
          let skipTrainer := h6 &&& 0x4 ≠ 0
          let prgRomStart := 16 + if skipTrainer then 512 else 0
          let prgRomEnd := prgRomStart + prgRomSize
          let chrRomEnd := prgRomEnd + chrRomSize
          if chrRomEnd ≤ raw.length then
            some (Except.ok
              { prgRom := (raw.drop prgRomStart).take prgRomSize
                chrRom := (raw.drop prgRomEnd).take chrRomSize
                mapper := mapper
                mirroring := mirroring })
          else none
        | _, _ => none
    | _, _ => none

end Rom

/-- A minimal valid iNES image for the cartridge witness: the four magic
bytes and twelve zero header bytes (zero PRG and CHR banks). -/
def romRaw16 : List Nat :=
  [0x4E, 0x45, 0x53, 0x1A, 0, 0, 0, 0, 0, 0, 0, 0, 0, 0, 0, 0]

/-- A PPU whose (spec-modelled) address register holds `0x3F00 + lo` and
whose palette table is non-trivial, used to exercise the palette-mirror
paths of `read_data`/`write_to_data`. -/
def ppuPalette (lo : Nat) : NesPPU :=
  { NesPPU.new [] Mirroring.HORIZONTAL with
      addr := { hi := 0x3F, lo := lo, hiPtr := true }
      paletteTable := fun i => i + 1 }

/-! ## CPU status flags and opcode table -/

namespace StatusFlags

def CARRY : Nat := 0x01
def ZERO : Nat := 0x02
def INTERRUPT_DISABLE : Nat := 0x04
def DECIMAL : Nat := 0x08
def BREAK : Nat := 0x10
def BREAK2 : Nat := 0x20
def OVERFLOW : Nat := 0x40
def NEGATIVE : Nat := 0x80

end StatusFlags

/-- bitflags `insert` on the CPU status byte. -/
def statusInsert (s m : Nat) : Nat := s ||| m

/-- bitflags `remove` (`bits &= !mask` on `u8`). -/
def statusRemove (s m : Nat) : Nat := s &&& (0xFF ^^^ m)

/-- bitflags `contains`. -/
def statusContains (s m : Nat) : Bool := s &&& m = m

/-- bitflags `set`. -/
def statusSet (s m : Nat) (b : Bool) : Nat :=
  if b then statusInsert s m else statusRemove s m

/-- One entry of the opcode dispatch table. -/
structure OpCode where
  code : Nat
  mnemonic : String
  bytes : Nat
  cycles : Nat
  deriving Repr, DecidableEq

/-- Modelled from the spec: the `opcodes` module (declared in `main.rs`,
holding `CPU_OPS_CODES_MAP`) is not present under `src/`.  Per spec §4.5
every entry carries `{opcode_byte, mnemonic, addressing_mode, byte_length,
base_cycles}`, filled from the canonical NES opcode matrix the spec
references.  Only the opcodes whose handlers are embedded below appear
here; any other opcode byte yields `none` (the source's table covers all
256 bytes). -/
def opcodeMap (code : Nat) : Option OpCode :=
  if code = 0x00 then some { code := 0x00, mnemonic := "BRK", bytes := 1, cycles := 7 }
  else if code = 0xEA then some { code := 0xEA, mnemonic := "NOP", bytes := 1, cycles := 2 }
  else if code = 0xE8 then some { code := 0xE8, mnemonic := "INX", bytes := 1, cycles := 2 }
  else none

/-! ## Bus (`src/bus.rs`) -/

/-- `Bus` from `src/bus.rs`.  `cpu_vram: [u8; 2048]` is a total function
(every access below is masked to `0x07FF`); the PRG ROM is a list so that
the fallible `Vec` indexing of `read_prg_rom` is visible.  The
`game_loop_callback` is host-side (spec §1 places windowing and input
outside the core) and is modelled as a no-op. -/
structure Bus where
  cpuVram : Nat → Nat
  rom : List Nat
  ppu : NesPPU
  cycles : Nat
  joypad1 : Joypad

namespace Bus

/-- `Bus::new` (the callback is dropped, see above). -/
def new (rom : Rom) : Bus where
  cpuVram := fun _ => 0
  rom := rom.prgRom
  ppu := NesPPU.new rom.chrRom rom.mirroring
  cycles := 0
  joypad1 := Joypad.new

/-- `read_prg_rom`. -/
def readPrgRom (b : Bus) (address : Nat) : Option Nat :=
  let address := address - 0x8000
  let address := if b.rom.length = 0x4000 then address % 0x4000 else address
  b.rom.get? address

/-- `Bus::tick` from `src/bus.rs:118`: account the CPU cycles, advance the
PPU by `cycles * 3` dots (`u8` arithmetic), and on a completed frame invoke
the host callback (a no-op here). -/
def tick (b : Bus) (cycles : Nat) : Bus :=
  let b1 : Bus := { b with cycles := b.cycles + cycles }
  { b1 with ppu := (b1.ppu.tick ((cycles * 3) % 256)).1 }

/-- `poll_nmi_status`. -/
def pollNmiStatus (b : Bus) : Option Nat × Bus :=
  let r := b.ppu.pollNmiInterrupt
  (r.1, { b with ppu := r.2 })

end Bus

/-- `mem_read` for the bus (`src/bus.rs:23`), with an explicit recursion
bound: the source recurses once through the register mirror range
`0x2008–0x3FFF`, and the mirrored-down address `addr &&& 0x2007` can never
land in that range again.  `none` marks a panic (reading a write-only PPU
register, or an out-of-bounds ROM index). -/
def busMemReadGo : Nat → Bus → Nat → Option (Nat × Bus)
  | 0, _, _ => none
  | fuel + 1, b, address =>
    if address ≤ 0x1FFF then
      let unmirrored := address &&& 0x07FF
      some (b.cpuVram (unmirrored &&& 0x07FF), b)
    else if address = 0x2000 ∨ address = 0x2001 ∨ address = 0x2003 ∨
        address = 0x2005 ∨ address = 0x2006 ∨ address = 0x4014 then
      none
    else if address = 0x2002 then
      let r := b.ppu.readStatus
      some (r.1, { b with ppu := r.2 })
    else if address = 0x2004 then
      some (b.ppu.readOamData, b)
    else if address = 0x2007 then
      match b.ppu.readData with
      | some (v, ppu1) => some (v, { b with ppu := ppu1 })
      | none => none
    else if 0x4000 ≤ address ∧ address ≤ 0x4015 then some (0, b)
    else if address = 0x4016 then
      let r := b.joypad1.read
      some (r.1, { b with joypad1 := r.2 })
    else if address = 0x4017 then some (0, b)
    else if 0x2008 ≤ address ∧ address ≤ 0x3FFF then
      busMemReadGo fuel b (address &&& 0x2007)
    else if 0x8000 ≤ address ∧ address ≤ 0xFFFF then
      match b.readPrgRom address with
      | some v => some (v, b)
      | none => none
    else some (0, b)

def Bus.memRead (b : Bus) (address : Nat) : Option (Nat × Bus) :=
  busMemReadGo 2 b address

/-- The `0x4014` OAM-DMA body: read the 256 source bytes through the bus
into a buffer (initially zeroed), threading the bus state. -/
def oamDmaRead (b : Bus) (hi : Nat) : Option ((Nat → Nat) × Bus) :=
  (List.range 256).foldl
    (fun acc i => acc.bind fun r =>
      match r.1, r.2 with
      | buf, b1 =>
        match b1.memRead (hi ||| i) with
        | some (v, b2) => some (updFn buf i v, b2)
        | none => none)
    (some (fun _ => 0, b))

/-- `mem_write` for the bus (`src/bus.rs:51`), with the same explicit
recursion bound through the mirror range as `busMemReadGo`.  `none` marks
a panic (writing `PPUSTATUS`, writing PRG ROM, or a panic propagated from
the PPU). -/
def busMemWriteGo : Nat → Bus → Nat → Nat → Option Bus
  | 0, _, _, _ => none
  | fuel + 1, b, address, value =>
    if address ≤ 0x1FFF then
      some { b with cpuVram := updFn b.cpuVram (address &&& 0x07FF) value }
    else if address = 0x2000 then some { b with ppu := b.ppu.writeToCtrl value }
    else if address = 0x2001 then some { b with ppu := b.ppu.writeToMask value }
    else if address = 0x2002 then none
    else if address = 0x2003 then some { b with ppu := b.ppu.writeToOamAddr value }
    else if address = 0x2004 then some { b with ppu := b.ppu.writeToOamData value }
    else if address = 0x2005 then some { b with ppu := b.ppu.writeToScroll value }
    else if address = 0x2006 then some { b with ppu := b.ppu.writeToPpuAddr value }
    else if address = 0x2007 then
      match b.ppu.writeToData value with
      | some ppu1 => some { b with ppu := ppu1 }
      | none => none
    else if (0x4000 ≤ address ∧ address ≤ 0x4013) ∨ address = 0x4015 then some b
    else if address = 0x4016 then some { b with joypad1 := b.joypad1.write value }
    else if address = 0x4017 then some b
    else if address = 0x4014 then
      match oamDmaRead b (value <<< 8) with
      | some (buf, b1) => some { b1 with ppu := b1.ppu.writeToOamDma buf }
      | none => none
    else if 0x2008 ≤ address ∧ address ≤ 0x3FFF then
      busMemWriteGo fuel b (address &&& 0x2007) value
    else if 0x8000 ≤ address ∧ address ≤ 0xFFFF then none
    else some b

def Bus.memWrite (b : Bus) (address value : Nat) : Option Bus :=
  busMemWriteGo 2 b address value

/-- The default `Mem::u16_mem_read` (low byte first; the successor address
wraps as a `u16`). -/
def Bus.u16MemRead (b : Bus) (address : Nat) : Option (Nat × Bus) :=
  match b.memRead address with
  | some (low, b1) =>
    match b1.memRead ((address + 1) % 65536) with
    | some (high, b2) => some ((high <<< 8) ||| low, b2)
    | none => none
  | none => none

/-- The default `Mem::u16_mem_write`. -/
def Bus.u16MemWrite (b : Bus) (address value : Nat) : Option Bus :=
  match b.memWrite address (value % 256) with
  | some b1 => b1.memWrite ((address + 1) % 65536) ((value >>> 8) % 256)
  | none => none

/-! ## CPU (`src/cpu.rs`) -/

structure CPU where
  registerA : Nat
  registerX : Nat
  registerY : Nat
  status : Nat
  stackPointer : Nat
  programCounter : Nat
  bus : Bus

def STACK : Nat := 0x0100
def STACK_START : Nat := 0xFD

namespace CPU

/-- `CPU::new`. -/
def new (bus : Bus) : CPU where
  registerA := 0
  registerX := 0
  registerY := 0
  status := 0b100100
  stackPointer := 0xFD
  programCounter := 0
  bus := bus

def memRead (c : CPU) (address : Nat) : Option (Nat × CPU) :=
  (c.bus.memRead address).map fun r => (r.1, { c with bus := r.2 })

def memWrite (c : CPU) (address value : Nat) : Option CPU :=
  (c.bus.memWrite address value).map fun b => { c with bus := b }

def u16MemRead (c : CPU) (address : Nat) : Option (Nat × CPU) :=
  (c.bus.u16MemRead address).map fun r => (r.1, { c with bus := r.2 })

/-- `stack_push_u8`: write at `0x0100 + S`, then decrement S with 8-bit
wrap. -/
def stackPushU8 (c : CPU) (value : Nat) : Option CPU :=
  (c.memWrite (STACK + c.stackPointer) value).map fun c1 =>
    { c1 with stackPointer := (c1.stackPointer + 255) % 256 }

/-- `stack_push_u16`: high byte first. -/
def stackPushU16 (c : CPU) (value : Nat) : Option CPU :=
  let lo := value &&& 0x00FF
  let hi := (value &&& 0xFF00) >>> 8
  (c.stackPushU8 hi).bind fun c1 => c1.stackPushU8 lo

/-- `update_zero_and_negative_flags` from `src/cpu.rs`. -/
def updateZeroAndNegativeFlags (c : CPU) (registerValue : Nat) : CPU :=
  let c1 : CPU :=
    if registerValue = 0 then { c with status := statusInsert c.status StatusFlags.ZERO }
    else { c with status := statusRemove c.status StatusFlags.ZERO }
  if registerValue &&& 0b10000000 ≠ 0 then
    { c1 with status := statusInsert c1.status StatusFlags.NEGATIVE }
  else { c1 with status := statusRemove c1.status StatusFlags.NEGATIVE }

/-- `add_to_reg_a` from `src/cpu.rs:198` (the ADC core). -/
def addToRegA (c : CPU) (value : Nat) : CPU :=
  let sum := c.registerA + value +
    (if statusContains c.status StatusFlags.CARRY then 1 else 0)
  let c1 : CPU := { c with status := statusSet c.status StatusFlags.CARRY (decide (sum > 0xFF)) }
  let result := sum % 256
  let c2 : CPU :=
    if (value ^^^ result) &&& (result ^^^ c1.registerA) &&& 0x80 ≠ 0 then
      { c1 with status := statusInsert c1.status StatusFlags.OVERFLOW }
    else { c1 with status := statusRemove c1.status StatusFlags.OVERFLOW }
  let c3 : CPU := { c2 with registerA := result }
  c3.updateZeroAndNegativeFlags c3.registerA

/-- `sub_from_reg_a` from `src/cpu.rs:215` (the SBC core):
`(value as i8).wrapping_neg().wrapping_sub(1) as u8` for a `u8` value is
`((256 - value) % 256 + 255) % 256`. -/
def subFromRegA (c : CPU) (value : Nat) : CPU :=
  c.addToRegA (((256 - value) % 256 + 255) % 256)

/-- The BRK handler (`src/cpu.rs:323`): just sets the BREAK flag. -/
def brk (c : CPU) : CPU :=
  { c with status := statusInsert c.status StatusFlags.BREAK }

/-- The NOP handler. -/
def nop (c : CPU) : CPU := c

/-- The INX handler. -/
def inx (c : CPU) : CPU :=
  let c1 : CPU := { c with registerX := (c.registerX + 1) % 256 }
  c1.updateZeroAndNegativeFlags c1.registerX

/-- The opcode dispatch `match_all!(code)` expands to.  Only the handlers
embedded above are modelled; any other opcode byte yields `none`. -/
def dispatch (c : CPU) (code : Nat) : Option CPU :=
  if code = 0x00 then some c.brk
  else if code = 0xEA then some c.nop
  else if code = 0xE8 then some c.inx
  else none

end CPU

/-- The NMI interrupt descriptor from `src/cpu.rs` (`mod interrupt`). -/
structure Interrupt where
  vectorAddr : Nat
  bFlagMask : Nat
  cpuCycles : Nat

def NMI : Interrupt := { vectorAddr := 0xFFFA, bFlagMask := 0b00100000, cpuCycles := 2 }

namespace CPU

/-- `CPU::interrupt` from `src/cpu.rs:911` (note the source masks BREAK
with the literal `0b0010000`, i.e. `0x10`, not `0b00100000`). -/
def interrupt (c : CPU) (i : Interrupt) : Option CPU :=
  (c.stackPushU16 c.programCounter).bind fun c1 =>
    let flag := statusSet (statusSet c1.status StatusFlags.BREAK
        (decide (i.bFlagMask &&& 0b0010000 ≠ 0)))
      StatusFlags.BREAK2 (decide (i.bFlagMask &&& 0b100000 ≠ 0))
    (c1.stackPushU8 flag).bind fun c2 =>
      let c3 : CPU := { c2 with status := statusInsert c2.status StatusFlags.INTERRUPT_DISABLE }
      let c4 : CPU := { c3 with bus := c3.bus.tick i.cpuCycles }
      (c4.u16MemRead i.vectorAddr).map fun r => { r.2 with programCounter := r.1 }

/-- One iteration of the `run_with_callback` loop (`src/cpu.rs:998`):
drain a pending NMI, fetch the opcode byte at PC, advance PC, dispatch to
the handler, then — exactly as the source orders it — test the BREAK flag
(returning `true` = loop exit) *before* `bus.tick(opcode.cycles)` and the
byte-length PC adjustment.  The trace callback of `run` is `|_| {}`. -/
def runStep (c : CPU) : Option (CPU × Bool) :=
  let polled := c.bus.pollNmiStatus
  let c0 : CPU := { c with bus := polled.2 }
  let afterNmi : Option CPU :=
    match polled.1 with
    | some _ => c0.interrupt NMI
    | none => some c0
  afterNmi.bind fun c1 =>
    (c1.memRead c1.programCounter).bind fun fetched =>
      match fetched with
      | (code, c2) =>
        let c3 : CPU := { c2 with programCounter := (c2.programCounter + 1) % 65536 }
        let originalPc := c3.programCounter
        (opcodeMap code).bind fun opcode =>
          (c3.dispatch code).bind fun c4 =>
            if statusContains c4.status StatusFlags.BREAK then some (c4, true)
            else
              let c5 : CPU := { c4 with bus := c4.bus.tick opcode.cycles }
              let c6 : CPU :=
                if originalPc = c5.programCounter then
                  { c5 with programCounter :=
                      (c5.programCounter + (opcode.bytes - 1)) % 65536 }
                else c5
              some (c6, false)

/-- `CPU::run`, with explicit fuel for the unbounded source loop.  Returns
the CPU state at loop exit. -/
def run : Nat → CPU → Option CPU
  | 0, _ => none
  | fuel + 1, c =>
    c.runStep.bind fun r => if r.2 then some r.1 else run fuel r.1

end CPU

/-- A concrete machine whose memory is all zeroes: the CPU fetches opcode
`0x00` (BRK) at every PC. -/
def cpu0 : CPU :=
  CPU.new
    { cpuVram := fun _ => 0
      rom := []
      ppu := NesPPU.new [] Mirroring.HORIZONTAL
      cycles := 0
      joypad1 := Joypad.new }

/-- Concrete CPU for the ADC witness (spec §8 scenario 6: `A=0x50, M=0x50,
C=0`). -/
def cpuA : CPU := { cpu0 with registerA := 0x50 }

/-- Concrete CPU for the SBC witness (CARRY set). -/
def cpuS : CPU := { cpu0 with registerA := 0x50, status := 0b100101 }

/-- What the ADC core (`add_to_reg_a`) establishes: the accumulator becomes
`(A + M + C) mod 256`, CARRY is set iff the exact sum exceeds `0xFF`,
OVERFLOW is set iff `(M ^ R) & (R ^ A) & 0x80 ≠ 0`, equivalently iff `A`
and `M` share a sign bit and `R`'s sign bit differs from `A`'s, and ZERO
and NEGATIVE are updated from the result. -/
def AdcContract (c : CPU) (value : Nat) : Prop :=
  let carryIn := if statusContains c.status StatusFlags.CARRY then 1 else 0
  let sum := c.registerA + value + carryIn
  let r := sum % 256
  (c.addToRegA value).registerA = r ∧
  (statusContains (c.addToRegA value).status StatusFlags.CARRY = true ↔ 0xFF < sum) ∧
  (statusContains (c.addToRegA value).status StatusFlags.OVERFLOW = true ↔
    (value ^^^ r) &&& (r ^^^ c.registerA) &&& 0x80 ≠ 0) ∧
  (statusContains (c.addToRegA value).status StatusFlags.OVERFLOW = true ↔
    (c.registerA.testBit 7 = value.testBit 7 ∧ r.testBit 7 ≠ c.registerA.testBit 7)) ∧
  (statusContains (c.addToRegA value).status StatusFlags.ZERO = true ↔ r = 0) ∧
  (statusContains (c.addToRegA value).status StatusFlags.NEGATIVE = true ↔
    r &&& 0x80 ≠ 0)

/-- The behaviour `NesPPU::tick` must exhibit on one call: dots are added to
the cycle counter, a counter of at least 341 is reduced by 341 with the
scanline incremented, scanline 241 starts the vertical blank (setting
VERTICAL_BLANK, clearing SPRITE_ZERO_HIT, and raising `nmi_interrupt` exactly
when `ctrl.GENERATE_NMI` is set), and the call returns `true` exactly when the
scanline reaches 262, in which case the scanline wraps to 0 and
`nmi_interrupt`, SPRITE_ZERO_HIT and VERTICAL_BLANK are all cleared. -/
def TickContract (p : NesPPU) (dots : Nat) : Prop :=
  (p.cycles + dots < 341 →
    (p.tick dots).1.cycles = p.cycles + dots ∧
    (p.tick dots).1.scanline = p.scanline ∧ (p.tick dots).2 = false) ∧
  (341 ≤ p.cycles + dots → (p.tick dots).1.cycles = p.cycles + dots - 341) ∧
  (341 ≤ p.cycles + dots → p.scanline + 1 = 241 →
    (p.tick dots).1.scanline = 241 ∧
    (p.tick dots).1.status.isInVerticalBlank = true ∧
    (p.tick dots).1.status.isInSpriteZeroHit = false ∧
    (p.tick dots).1.nmiInterrupt =
      (if p.ctrl.generateNmi then some 1 else p.nmiInterrupt)) ∧
  ((p.tick dots).2 = true ↔ 341 ≤ p.cycles + dots ∧ p.scanline + 1 = 262) ∧
  (341 ≤ p.cycles + dots → p.scanline + 1 = 262 →
    (p.tick dots).1.scanline = 0 ∧ (p.tick dots).1.nmiInterrupt = none ∧
    (p.tick dots).1.status.isInSpriteZeroHit = false ∧
    (p.tick dots).1.status.isInVerticalBlank = false) ∧
  (341 ≤ p.cycles + dots → p.scanline + 1 ≠ 241 → p.scanline + 1 ≠ 262 →
    (p.tick dots).1.scanline = p.scanline + 1 ∧ (p.tick dots).2 = false)

/-- Concrete PPU state used by the `tick` witness: one dot short of the end
of scanline 240. -/
def ppuAt240 : NesPPU :=
  { NesPPU.new [] Mirroring.HORIZONTAL with scanline := 240, cycles := 340 }


/-- The PPU counter invariant: the scanline stays in `0…261` and the
within-scanline dot counter in `0…340`. -/
def PPUInv (p : NesPPU) : Prop :=
  p.scanline ≤ 261 ∧ p.cycles ≤ 340

/-- Folding a whole sequence of `tick` calls over a PPU state. -/
def tickSeq (p : NesPPU) (l : List Nat) : NesPPU :=
  l.foldl (fun q d => (q.tick d).1) p

/-- The 256-byte DMA buffer of the OAM witness (spec §8 scenario 3). -/
def dmaBuf : Nat → Nat :=
  fun i => if i = 0 then 0x77 else if i = 255 then 0x88 else 0x66

/-- Concrete joypad for the C8 witness. -/
def joyW : Joypad := ⟨false, 3, 0b10110010⟩

/-! ## Bitmask helper lemmas -/

theorem and_pow_cases (b k : Nat) : b &&& 2 ^ k = 0 ∨ b &&& 2 ^ k = 2 ^ k := by
  rw [Nat.and_two_pow]
  cases b.testBit k <;> simp

theorem or_pow_and_pow (b k : Nat) : (b ||| 2 ^ k) &&& 2 ^ k = 2 ^ k := by
  rw [Nat.and_comm, Nat.and_or_distrib_left, Nat.and_comm (2 ^ k) b]
  rcases and_pow_cases b k with h | h <;> rw [h] <;> simp [Nat.and_self]

theorem and128_ne_zero_iff (x : Nat) : x &&& 128 ≠ 0 ↔ x.testBit 7 = true := by
  rw [show (128 : Nat) = 2 ^ 7 by norm_num, Nat.and_two_pow]
  cases h : x.testBit 7 <;> simp

theorem overflow_sign_iff (a v r : Nat) :
    (v ^^^ r) &&& (r ^^^ a) &&& 128 ≠ 0 ↔
      (a.testBit 7 = v.testBit 7 ∧ r.testBit 7 ≠ a.testBit 7) := by
  rw [and128_ne_zero_iff, Nat.testBit_and, Nat.testBit_xor, Nat.testBit_xor]
  cases a.testBit 7 <;> cases v.testBit 7 <;> cases r.testBit 7 <;> simp

theorem and128_cases (b : Nat) : b &&& 128 = 0 ∨ b &&& 128 = 128 := by
  rw [show (128 : Nat) = 2 ^ 7 by norm_num, Nat.and_two_pow]
  cases b.testBit 7 <;> simp

theorem or128_and128 (b : Nat) : (b ||| 128) &&& 128 = 128 := by
  rw [Nat.and_comm, Nat.and_or_distrib_left]
  rcases and128_cases b with h | h <;>
    rw [Nat.and_comm (128 : Nat) b, h] <;> decide

theorem status241_vblank (b : Nat) : ((b ||| 128) &&& 191) &&& 128 = 128 := by
  rw [Nat.and_assoc, show (191 : Nat) &&& 128 = 128 by decide]
  exact or128_and128 b

theorem status241_szh (b : Nat) : ((b ||| 128) &&& 191) &&& 64 = 0 := by
  rw [Nat.and_assoc, show (191 : Nat) &&& 64 = 0 by decide, Nat.and_zero]

theorem status262_szh (b : Nat) : ((b &&& 191) &&& 127) &&& 64 = 0 := by
  rw [Nat.and_assoc, Nat.and_assoc, show (191 : Nat) &&& (127 &&& 64) = 0 by decide,
    Nat.and_zero]

theorem status262_vblank (b : Nat) : ((b &&& 191) &&& 127) &&& 128 = 0 := by
  rw [Nat.and_assoc, Nat.and_assoc, show (191 : Nat) &&& (127 &&& 128) = 0 by decide,
    Nat.and_zero]

namespace StatusRegister

theorem vblank_after_241 (s : StatusRegister) :
    ((s.setVerticalBlank true).setSpriteZeroHit false).isInVerticalBlank = true := by
  simp [setVerticalBlank, setSpriteZeroHit, setFlag, isInVerticalBlank,
    VERTICAL_BLANK, SPRITE_ZERO_HIT]
  exact status241_vblank s.bits

theorem szh_after_241 (s : StatusRegister) :
    ((s.setVerticalBlank true).setSpriteZeroHit false).isInSpriteZeroHit = false := by
  simp [setVerticalBlank, setSpriteZeroHit, setFlag, isInSpriteZeroHit,
    VERTICAL_BLANK, SPRITE_ZERO_HIT]
  rw [status241_szh s.bits]
  decide

theorem szh_after_262 (s : StatusRegister) :
    ((s.setSpriteZeroHit false).resetVerticalBlank).isInSpriteZeroHit = false := by
  simp [resetVerticalBlank, setSpriteZeroHit, setFlag, isInSpriteZeroHit,
    VERTICAL_BLANK, SPRITE_ZERO_HIT]
  rw [status262_szh s.bits]
  decide

theorem vblank_after_262 (s : StatusRegister) :
    ((s.setSpriteZeroHit false).resetVerticalBlank).isInVerticalBlank = false := by
  simp [resetVerticalBlank, setSpriteZeroHit, setFlag, isInVerticalBlank,
    VERTICAL_BLANK, SPRITE_ZERO_HIT]
  rw [status262_vblank s.bits]
  decide

end StatusRegister

/-! ## Facts about `NesPPU.tick` -/

theorem tick_cycles_eq (p : NesPPU) (d : Nat) :
    (p.tick d).1.cycles =
      if 341 ≤ p.cycles + d then p.cycles + d - 341 else p.cycles + d := by
  by_cases h341 : 341 ≤ p.cycles + d <;>
  cases hhit : ({ p with cycles := p.cycles + d } : NesPPU).isSprite0Hit (p.cycles + d) <;>
  by_cases h241 : p.scanline + 1 = 241 <;>
  cases hnmi : p.ctrl.generateNmi <;>
  by_cases h262 : 262 ≤ p.scanline + 1 <;>
  simp [NesPPU.tick, h341, hhit, h241, hnmi, h262]

theorem tick_scanline_eq (p : NesPPU) (d : Nat) :
    (p.tick d).1.scanline =
      if 341 ≤ p.cycles + d then
        (if 262 ≤ p.scanline + 1 then 0 else p.scanline + 1)
      else p.scanline := by
  by_cases h341 : 341 ≤ p.cycles + d <;>
  cases hhit : ({ p with cycles := p.cycles + d } : NesPPU).isSprite0Hit (p.cycles + d) <;>
  by_cases h241 : p.scanline + 1 = 241 <;>
  cases hnmi : p.ctrl.generateNmi <;>
  by_cases h262 : 262 ≤ p.scanline + 1 <;>
  simp [NesPPU.tick, h341, hhit, h241, hnmi, h262]

/-- C1: every call to `NesPPU::tick(dots)` from a state whose scanline is in
range satisfies the tick contract: dots are added to the cycle counter; a
counter of at least 341 is reduced by 341 and the scanline incremented; when
the scanline becomes 241, VERTICAL_BLANK is set, SPRITE_ZERO_HIT is cleared,
and `nmi_interrupt` is raised iff `ctrl.GENERATE_NMI` is set; `tick` returns
`true` exactly when the scanline reaches 262, wrapping it to 0 and clearing
`nmi_interrupt`, SPRITE_ZERO_HIT and VERTICAL_BLANK; in every other case it
returns `false`. -/
theorem tick_contract (p : NesPPU) (dots : Nat) (hs : p.scanline ≤ 261) :
    TickContract p dots := by
  by_cases h341 : 341 ≤ p.cycles + dots
  · cases hhit : ({ p with cycles := p.cycles + dots } : NesPPU).isSprite0Hit (p.cycles + dots)
    · by_cases h241 : p.scanline + 1 = 241
      · cases hnmi : p.ctrl.generateNmi
        · have heq : p.tick dots = ({ p with
              cycles := p.cycles + dots - 341
              scanline := p.scanline + 1
              status := (p.status.setVerticalBlank true).setSpriteZeroHit false }, false) := by
            simp [NesPPU.tick, h341, hhit, h241, hnmi]
          rw [TickContract, heq]
          refine ⟨fun h => absurd h (by omega), fun _ => rfl,
            fun _ _ => ⟨h241, StatusRegister.vblank_after_241 _,
              StatusRegister.szh_after_241 _, by simp [hnmi]⟩,
            ⟨fun h => by simp at h, fun h => absurd h.2 (by omega)⟩,
            fun _ h2 => absurd h2 (by omega), fun _ h2 _ => absurd h241 h2⟩
        · have heq : p.tick dots = ({ p with
              cycles := p.cycles + dots - 341
              scanline := p.scanline + 1
              status := (p.status.setVerticalBlank true).setSpriteZeroHit false
              nmiInterrupt := some 1 }, false) := by
            simp [NesPPU.tick, h341, hhit, h241, hnmi]
          rw [TickContract, heq]
          refine ⟨fun h => absurd h (by omega), fun _ => rfl,
            fun _ _ => ⟨h241, StatusRegister.vblank_after_241 _,
              StatusRegister.szh_after_241 _, by simp [hnmi]⟩,
            ⟨fun h => by simp at h, fun h => absurd h.2 (by omega)⟩,
            fun _ h2 => absurd h2 (by omega), fun _ h2 _ => absurd h241 h2⟩
      · by_cases h262 : p.scanline + 1 = 262
        · have heq : p.tick dots = ({ p with
              cycles := p.cycles + dots - 341
              scanline := 0
              status := (p.status.setSpriteZeroHit false).resetVerticalBlank
              nmiInterrupt := none }, true) := by
            simp [NesPPU.tick, h341, hhit, h241, h262]
          rw [TickContract, heq]
          refine ⟨fun h => absurd h (by omega), fun _ => rfl,
            fun _ h2 => absurd h2 h241,
            ⟨fun _ => ⟨h341, h262⟩, fun _ => rfl⟩,
            fun _ _ => ⟨rfl, rfl, StatusRegister.szh_after_262 _,
              StatusRegister.vblank_after_262 _⟩,
            fun _ _ h2 => absurd h262 h2⟩
        · have hlt : ¬ 262 ≤ p.scanline + 1 := by omega
          have heq : p.tick dots = ({ p with
              cycles := p.cycles + dots - 341
              scanline := p.scanline + 1 }, false) := by
            simp [NesPPU.tick, h341, hhit, h241, hlt]
          rw [TickContract, heq]
          refine ⟨fun h => absurd h (by omega), fun _ => rfl,
            fun _ h2 => absurd h2 h241,
            ⟨fun h => by simp at h, fun h => absurd h.2 h262⟩,
            fun _ h2 => absurd h2 h262, fun _ _ _ => ⟨rfl, rfl⟩⟩
    · by_cases h241 : p.scanline + 1 = 241
      · cases hnmi : p.ctrl.generateNmi
        · have heq : p.tick dots = ({ p with
              cycles := p.cycles + dots - 341
              scanline := p.scanline + 1
              status := ((p.status.setSpriteZeroHit true).setVerticalBlank
                true).setSpriteZeroHit false }, false) := by
            simp [NesPPU.tick, h341, hhit, h241, hnmi]
          rw [TickContract, heq]
          refine ⟨fun h => absurd h (by omega), fun _ => rfl,
            fun _ _ => ⟨h241, StatusRegister.vblank_after_241 _,
              StatusRegister.szh_after_241 _, by simp [hnmi]⟩,
            ⟨fun h => by simp at h, fun h => absurd h.2 (by omega)⟩,
            fun _ h2 => absurd h2 (by omega), fun _ h2 _ => absurd h241 h2⟩
        · have heq : p.tick dots = ({ p with
              cycles := p.cycles + dots - 341
              scanline := p.scanline + 1
              status := ((p.status.setSpriteZeroHit true).setVerticalBlank
                true).setSpriteZeroHit false
              nmiInterrupt := some 1 }, false) := by
            simp [NesPPU.tick, h341, hhit, h241, hnmi]
          rw [TickContract, heq]
          refine ⟨fun h => absurd h (by omega), fun _ => rfl,
            fun _ _ => ⟨h241, StatusRegister.vblank_after_241 _,
              StatusRegister.szh_after_241 _, by simp [hnmi]⟩,
            ⟨fun h => by simp at h, fun h => absurd h.2 (by omega)⟩,
            fun _ h2 => absurd h2 (by omega), fun _ h2 _ => absurd h241 h2⟩
      · by_cases h262 : p.scanline + 1 = 262
        · have heq : p.tick dots = ({ p with
              cycles := p.cycles + dots - 341
              scanline := 0
              status := ((p.status.setSpriteZeroHit true).setSpriteZeroHit
                false).resetVerticalBlank
              nmiInterrupt := none }, true) := by
            simp [NesPPU.tick, h341, hhit, h241, h262]
          rw [TickContract, heq]
          refine ⟨fun h => absurd h (by omega), fun _ => rfl,
            fun _ h2 => absurd h2 h241,
            ⟨fun _ => ⟨h341, h262⟩, fun _ => rfl⟩,
            fun _ _ => ⟨rfl, rfl, StatusRegister.szh_after_262 _,
              StatusRegister.vblank_after_262 _⟩,
            fun _ _ h2 => absurd h262 h2⟩
        · have hlt : ¬ 262 ≤ p.scanline + 1 := by omega
          have heq : p.tick dots = ({ p with
              cycles := p.cycles + dots - 341
              scanline := p.scanline + 1
              status := p.status.setSpriteZeroHit true }, false) := by
            simp [NesPPU.tick, h341, hhit, h241, hlt]
          rw [TickContract, heq]
          refine ⟨fun h => absurd h (by omega), fun _ => rfl,
            fun _ h2 => absurd h2 h241,
            ⟨fun h => by simp at h, fun h => absurd h.2 h262⟩,
            fun _ h2 => absurd h2 h262, fun _ _ _ => ⟨rfl, rfl⟩⟩
  · have heq : p.tick dots = ({ p with cycles := p.cycles + dots }, false) := by
      simp [NesPPU.tick, h341]
    rw [TickContract, heq]
    refine ⟨fun _ => ⟨rfl, rfl, rfl⟩, fun h => absurd h h341, fun h _ => absurd h h341,
      ⟨fun h => by simp at h, fun h => absurd h.1 h341⟩,
      fun h _ => absurd h h341, fun h _ _ => absurd h h341⟩

theorem tick_contract_witness :
    ppuAt240.scanline ≤ 261 ∧ TickContract ppuAt240 1 :=
  ⟨by decide, tick_contract ppuAt240 1 (by decide)⟩

theorem tick_preserves_inv (p : NesPPU) (d : Nat) (hd : d ≤ 255)
    (h : PPUInv p) : PPUInv (p.tick d).1 := by
  obtain ⟨h1, h2⟩ := h
  constructor
  · rw [tick_scanline_eq]
    split_ifs <;> omega
  · rw [tick_cycles_eq]
    split_ifs <;> omega

theorem tickSeq_inv (p : NesPPU) (l : List Nat) (hp : PPUInv p)
    (hl : ∀ d ∈ l, d ≤ 255) : PPUInv (tickSeq p l) := by
  induction l generalizing p with
  | nil => exact hp
  | cons d t ih =>
    have hd : d ≤ 255 := hl d (by simp)
    exact ih _ (tick_preserves_inv p d hd hp)
      (fun x hx => hl x (by simp [hx]))

/-- C9: from the state produced by `NesPPU::new`, every sequence of
`tick(dots)` calls (each `dots` a `u8`) preserves `scanline ≤ 261` and
`cycles ≤ 340`; in particular each call crosses at most one scanline
boundary. -/
theorem ppu_counter_invariant (chr : List Nat) (mir : Mirroring)
    (l : List Nat) (hl : ∀ d ∈ l, d ≤ 255) :
    PPUInv (tickSeq (NesPPU.new chr mir) l) := by
  refine tickSeq_inv _ l ⟨?_, ?_⟩ hl <;> simp [NesPPU.new]

theorem ppu_counter_invariant_witness :
    (∀ d ∈ [255, 255, 7], d ≤ 255) ∧
      PPUInv (tickSeq (NesPPU.new [] Mirroring.VERTICAL) [255, 255, 7]) :=
  ⟨by decide, ppu_counter_invariant [] Mirroring.VERTICAL [255, 255, 7] (by decide)⟩

/-! ## OAM DMA (claims C7, C10) -/

theorem dma_foldl_spec (data : Nat → Nat) (n : Nat) (hn : n ≤ 256)
    (p : NesPPU) (ha : p.oamAddr < 256) :
    ((List.range n).foldl (fun q i => q.oamDmaStep (data i)) p).oamAddr
        = (p.oamAddr + n) % 256 ∧
    ∀ i, i < n →
      ((List.range n).foldl (fun q i => q.oamDmaStep (data i)) p).oamData
          ((p.oamAddr + i) % 256) = data i := by
  induction n with
  | zero =>
    refine ⟨?_, fun i hi => absurd hi (by omega)⟩
    simp [Nat.mod_eq_of_lt ha]
  | succ n ih =>
    have hn' : n ≤ 256 := by omega
    obtain ⟨ihA, ihD⟩ := ih hn'
    rw [List.range_succ, List.foldl_append]
    set q : NesPPU := (List.range n).foldl (fun q i => q.oamDmaStep (data i)) p with hq
    constructor
    · simp only [List.foldl_cons, List.foldl_nil, NesPPU.oamDmaStep]
      rw [ihA]
      omega
    · intro i hi
      simp only [List.foldl_cons, List.foldl_nil, NesPPU.oamDmaStep]
      rcases Nat.lt_or_ge i n with hlt | hge
      · have hne : (p.oamAddr + i) % 256 ≠ q.oamAddr := by rw [ihA]; omega
        simp only [updFn, if_neg hne]
        exact ihD i hlt
      · have hieq : i = n := by omega
        subst hieq
        simp only [updFn, ihA]
        simp

theorem dma_foldl_frame (data : Nat → Nat) (l : List Nat) (p : NesPPU) :
    ((l.foldl (fun q i => q.oamDmaStep (data i)) p).chrRom = p.chrRom ∧
      (l.foldl (fun q i => q.oamDmaStep (data i)) p).paletteTable = p.paletteTable ∧
      (l.foldl (fun q i => q.oamDmaStep (data i)) p).vram = p.vram ∧
      (l.foldl (fun q i => q.oamDmaStep (data i)) p).mirroring = p.mirroring ∧
      (l.foldl (fun q i => q.oamDmaStep (data i)) p).internalDataBuffer
          = p.internalDataBuffer ∧
      (l.foldl (fun q i => q.oamDmaStep (data i)) p).addr = p.addr ∧
      (l.foldl (fun q i => q.oamDmaStep (data i)) p).ctrl = p.ctrl ∧
      (l.foldl (fun q i => q.oamDmaStep (data i)) p).mask = p.mask ∧
      (l.foldl (fun q i => q.oamDmaStep (data i)) p).scroll = p.scroll ∧
      (l.foldl (fun q i => q.oamDmaStep (data i)) p).status = p.status ∧
      (l.foldl (fun q i => q.oamDmaStep (data i)) p).scanline = p.scanline ∧
      (l.foldl (fun q i => q.oamDmaStep (data i)) p).cycles = p.cycles ∧
      (l.foldl (fun q i => q.oamDmaStep (data i)) p).nmiInterrupt = p.nmiInterrupt) := by
  induction l generalizing p with
  | nil => exact ⟨rfl, rfl, rfl, rfl, rfl, rfl, rfl, rfl, rfl, rfl, rfl, rfl, rfl⟩
  | cons a t ih =>
    simp only [List.foldl_cons]
    exact ih (p.oamDmaStep (data a))

/-- C7: setting the OAM cursor to `k` and then running `write_to_oam_dma`
with a 256-byte buffer `d` stores `d i` at `oam_data[(k + i) mod 256]` for
every `i < 256` (the cursor wraps past 255). -/
theorem oam_dma_writes (p : NesPPU) (k : Nat) (hk : k < 256) (d : Nat → Nat)
    (i : Nat) (hi : i < 256) :
    ((p.writeToOamAddr k).writeToOamDma d).oamData ((k + i) % 256) = d i := by
  have h := dma_foldl_spec d 256 (by omega) (p.writeToOamAddr k) (by simpa [NesPPU.writeToOamAddr] using hk)
  exact h.2 i hi

theorem oam_dma_writes_witness :
    16 < 256 ∧ 0 < 256 ∧
      (((NesPPU.new [] Mirroring.HORIZONTAL).writeToOamAddr 16).writeToOamDma
        dmaBuf).oamData ((16 + 0) % 256) = dmaBuf 0 :=
  ⟨by decide, by decide,
    oam_dma_writes (NesPPU.new [] Mirroring.HORIZONTAL) 16 (by decide) dmaBuf 0 (by decide)⟩

/-- C10: `write_to_oam_dma` returns the OAM cursor to its starting value
(256 wrapping increments) and changes no PPU field other than `oam_data`
and `oam_addr`. -/
theorem oam_dma_frame (p : NesPPU) (d : Nat → Nat) (ha : p.oamAddr < 256) :
    (p.writeToOamDma d).oamAddr = p.oamAddr ∧
    (p.writeToOamDma d).chrRom = p.chrRom ∧
    (p.writeToOamDma d).paletteTable = p.paletteTable ∧
    (p.writeToOamDma d).vram = p.vram ∧
    (p.writeToOamDma d).mirroring = p.mirroring ∧
    (p.writeToOamDma d).internalDataBuffer = p.internalDataBuffer ∧
    (p.writeToOamDma d).addr = p.addr ∧
    (p.writeToOamDma d).ctrl = p.ctrl ∧
    (p.writeToOamDma d).mask = p.mask ∧
    (p.writeToOamDma d).scroll = p.scroll ∧
    (p.writeToOamDma d).status = p.status ∧
    (p.writeToOamDma d).scanline = p.scanline ∧
    (p.writeToOamDma d).cycles = p.cycles ∧
    (p.writeToOamDma d).nmiInterrupt = p.nmiInterrupt := by
  refine ⟨?_, dma_foldl_frame d (List.range 256) p⟩
  have h := (dma_foldl_spec d 256 (by omega) p ha).1
  rw [NesPPU.writeToOamDma, h]
  omega

theorem oam_dma_frame_witness :
    (NesPPU.new [] Mirroring.HORIZONTAL).oamAddr < 256 ∧
      ((NesPPU.new [] Mirroring.HORIZONTAL).writeToOamDma dmaBuf).oamAddr
        = (NesPPU.new [] Mirroring.HORIZONTAL).oamAddr :=
  ⟨by decide,
    (oam_dma_frame (NesPPU.new [] Mirroring.HORIZONTAL) dmaBuf (by decide)).1⟩

/-! ## Joypad protocol (claim C8) -/

theorem response_eq_testBit (S i : Nat) :
    (S &&& (1 <<< i)) >>> i = (if S.testBit i then 1 else 0) := by
  rw [Nat.one_shiftLeft, Nat.and_two_pow, Nat.shiftRight_eq_div_pow]
  cases h : S.testBit i
  · simp
  · simp [Nat.div_self (Nat.two_pow_pos i)]

theorem write_strobe_on (j : Joypad) :
    j.write 1 = ⟨true, 0, j.buttonStatus⟩ := by
  simp [Joypad.write]

theorem write_strobe_off_after_on (j : Joypad) :
    (j.write 1).write 0 = ⟨false, 0, j.buttonStatus⟩ := by
  simp [Joypad.write]

theorem readN_state (S n : Nat) :
    Joypad.readN ⟨false, 0, S⟩ n = ⟨false, min n 8, S⟩ := by
  induction n with
  | zero => simp [Joypad.readN]
  | succ n ih =>
    rw [Joypad.readN, ih]
    simp only [Joypad.read, Joypad.mk.injEq, Nat.min_def]
    split_ifs <;> simp_all <;> omega

theorem readN_strobe_state (S n : Nat) :
    Joypad.readN ⟨true, 0, S⟩ n = ⟨true, 0, S⟩ := by
  induction n with
  | zero => simp [Joypad.readN]
  | succ n ih =>
    rw [Joypad.readN, ih]
    simp [Joypad.read]

/-- C8: after `write(1)` then `write(0)`, the next eight `read()` calls
return bits 0…7 of `button_status` (each as 0 or 1); every later read
returns 1; and while the strobe is held set, `read()` always returns
bit 0 without advancing `button_index`. -/
theorem joypad_shift_protocol (j : Joypad) :
    (∀ i, i < 8 →
      (Joypad.readN ((j.write 1).write 0) i).read.1 =
        (if j.buttonStatus.testBit i then 1 else 0)) ∧
    (∀ n, 8 ≤ n → (Joypad.readN ((j.write 1).write 0) n).read.1 = 1) ∧
    (∀ n,
      (Joypad.readN (j.write 1) n).read.1 =
        (if j.buttonStatus.testBit 0 then 1 else 0) ∧
      (Joypad.readN (j.write 1) n).buttonIndex = 0) := by
  refine ⟨?_, ?_, ?_⟩
  · intro i hi
    rw [write_strobe_off_after_on, readN_state]
    have hmin : min i 8 = i := Nat.min_eq_left (by omega)
    simp only [Joypad.read, hmin]
    rw [if_neg (by omega)]
    simp [response_eq_testBit]
  · intro n hn
    rw [write_strobe_off_after_on, readN_state]
    have hmin : min n 8 = 8 := Nat.min_eq_right (by omega)
    simp [Joypad.read, hmin]
  · intro n
    rw [write_strobe_on, readN_strobe_state]
    constructor
    · simp [Joypad.read, response_eq_testBit]
      split_ifs <;> omega
    · rfl

theorem joypad_shift_protocol_witness :
    (1 : Nat) < 8 ∧
      (Joypad.readN ((joyW.write 1).write 0) 1).read.1 =
        (if joyW.buttonStatus.testBit 1 then 1 else 0) :=
  ⟨by decide, (joypad_shift_protocol joyW).1 1 (by decide)⟩

/-! ## Cartridge parsing (claim C6) -/

/-- C6: for every byte sequence long enough to hold its declared contents,
`Rom::new` fails with "Invalid NES file" exactly when the magic differs
from `4E 45 53 1A`; otherwise fails with "Unsupported iNES version"
exactly when `(header[7] >> 2) & 3 ≠ 0`; otherwise succeeds with the
claimed mapper, mirroring, trainer skip, PRG ROM and CHR ROM slices. -/
theorem rom_new_spec (raw : List Nat) (h4 h5 h6 h7 : Nat)
    (e4 : raw.get? 4 = some h4) (e5 : raw.get? 5 = some h5)
    (e6 : raw.get? 6 = some h6) (e7 : raw.get? 7 = some h7)
    (hlen : 16 + (if h6 &&& 0x4 ≠ 0 then 512 else 0) + h4 * 16384 + h5 * 8192
      ≤ raw.length) :
    (raw.take 4 ≠ NES_TAG → Rom.new raw = some (Except.error "Invalid NES file")) ∧
    (raw.take 4 = NES_TAG → (h7 >>> 2) &&& 0x3 ≠ 0 →
      Rom.new raw = some (Except.error "Unsupported iNES version")) ∧
    (raw.take 4 = NES_TAG → (h7 >>> 2) &&& 0x3 = 0 →
      Rom.new raw = some (Except.ok
        { prgRom := (raw.drop (16 + (if h6 &&& 0x4 ≠ 0 then 512 else 0))).take
            (h4 * 16384)
          chrRom := (raw.drop ((16 + (if h6 &&& 0x4 ≠ 0 then 512 else 0))
            + h4 * 16384)).take (h5 * 8192)
          mapper := (h7 &&& 0xF0) ||| (h6 >>> 4)
          mirroring :=
            if h6 &&& 0x8 ≠ 0 then Mirroring.FOURSCREEN
            else if h6 &&& 0x1 ≠ 0 then Mirroring.VERTICAL
            else Mirroring.HORIZONTAL })) := by
  refine ⟨?_, ?_, ?_⟩
  · intro htag
    rw [Rom.new, if_neg (by omega), if_pos htag]
  · intro htag hver
    rw [Rom.new, if_neg (by omega), if_neg (by simp [htag])]
    rw [e7, e6]
    simp [hver]
  · intro htag hver
    rw [Rom.new, if_neg (by omega), if_neg (by simp [htag])]
    rw [e7, e6]
    simp only [hver, ne_eq, not_true_eq_false, if_false, ite_not]
    rw [e4, e5]
    simp only [PRG_ROM_PAGE_SIZE, CHR_ROM_PAGE_SIZE]
    have hlen2 : 16 + (if h6 &&& 4 = 0 then 0 else 512) + h4 * 16384 + h5 * 8192
        ≤ raw.length := by
      by_cases h : h6 &&& 4 = 0 <;> simp [h] at hlen ⊢ <;> omega
    rw [if_pos (by omega)]

theorem rom_new_spec_witness :
    romRaw16.take 4 = NES_TAG ∧
    Rom.new romRaw16 = some (Except.ok
      { prgRom := (romRaw16.drop (16 + (if (0 : Nat) &&& 0x4 ≠ 0 then 512 else 0))).take
          (0 * 16384)
        chrRom := (romRaw16.drop ((16 + (if (0 : Nat) &&& 0x4 ≠ 0 then 512 else 0))
          + 0 * 16384)).take (0 * 8192)
        mapper := ((0 : Nat) &&& 0xF0) ||| ((0 : Nat) >>> 4)
        mirroring :=
          if (0 : Nat) &&& 0x8 ≠ 0 then Mirroring.FOURSCREEN
          else if (0 : Nat) &&& 0x1 ≠ 0 then Mirroring.VERTICAL
          else Mirroring.HORIZONTAL }) :=
  ⟨by decide,
    (rom_new_spec romRaw16 0 0 0 0 rfl rfl rfl rfl (by decide)).2.2 (by decide) rfl⟩

/-! ## PPUDATA palette mirror read (claim C2) -/

/-- C2: at each mirror alias `0x3F10/0x3F14/0x3F18/0x3F1C` the `read_data`
palette branch computes palette index `(addr − 0x10) &&& 0x3F00 = 0x3F00`,
which is out of bounds for the 32-entry `palette_table` — the Rust code
panics (modelled as `none`) instead of returning the mirrored slot; the
corresponding `write_to_data` branch does store into the mirrored slot
`(addr − 0x10) − 0x3F00`. -/
theorem palette_mirror_read_panics :
    (ppuPalette 0x10).readData = none ∧
    (ppuPalette 0x14).readData = none ∧
    (ppuPalette 0x18).readData = none ∧
    (ppuPalette 0x1C).readData = none ∧
    ((ppuPalette 0x10).writeToData 0x55).map (fun q => q.paletteTable 0x00) = some 0x55 ∧
    ((ppuPalette 0x14).writeToData 0x55).map (fun q => q.paletteTable 0x04) = some 0x55 ∧
    ((ppuPalette 0x18).writeToData 0x55).map (fun q => q.paletteTable 0x08) = some 0x55 ∧
    ((ppuPalette 0x1C).writeToData 0x55).map (fun q => q.paletteTable 0x0C) = some 0x55 :=
  ⟨rfl, rfl, rfl, rfl, rfl, rfl, rfl, rfl⟩

/-! ## ADC / SBC cores (claims C4, C5) -/

theorem ite_statusSet (s m : Nat) (c : Prop) [Decidable c] :
    (if c then statusInsert s m else statusRemove s m) = statusSet s m (decide c) := by
  by_cases h : c <;> simp [h, statusSet]

set_option maxRecDepth 4000 in
theorem chain_contains (b1 b2 b3 b4 : Bool) : ∀ s, s < 256 →
    statusContains (statusSet (statusSet (statusSet (statusSet s StatusFlags.CARRY b1)
        StatusFlags.OVERFLOW b2) StatusFlags.ZERO b3) StatusFlags.NEGATIVE b4)
      StatusFlags.CARRY = b1 ∧
    statusContains (statusSet (statusSet (statusSet (statusSet s StatusFlags.CARRY b1)
        StatusFlags.OVERFLOW b2) StatusFlags.ZERO b3) StatusFlags.NEGATIVE b4)
      StatusFlags.OVERFLOW = b2 ∧
    statusContains (statusSet (statusSet (statusSet (statusSet s StatusFlags.CARRY b1)
        StatusFlags.OVERFLOW b2) StatusFlags.ZERO b3) StatusFlags.NEGATIVE b4)
      StatusFlags.ZERO = b3 ∧
    statusContains (statusSet (statusSet (statusSet (statusSet s StatusFlags.CARRY b1)
        StatusFlags.OVERFLOW b2) StatusFlags.ZERO b3) StatusFlags.NEGATIVE b4)
      StatusFlags.NEGATIVE = b4 := by
  cases b1 <;> cases b2 <;> cases b3 <;> cases b4 <;> decide

theorem addToRegA_registerA (c : CPU) (value : Nat) :
    (c.addToRegA value).registerA =
      (c.registerA + value +
        (if statusContains c.status StatusFlags.CARRY then 1 else 0)) % 256 := by
  simp [CPU.addToRegA, CPU.updateZeroAndNegativeFlags]
  split_ifs <;> rfl

theorem addToRegA_status (c : CPU) (value : Nat) :
    (c.addToRegA value).status =
      statusSet (statusSet (statusSet (statusSet c.status StatusFlags.CARRY
        (decide (0xFF < c.registerA + value +
          (if statusContains c.status StatusFlags.CARRY then 1 else 0))))
        StatusFlags.OVERFLOW
        (decide ((value ^^^ (c.registerA + value +
            (if statusContains c.status StatusFlags.CARRY then 1 else 0)) % 256) &&&
          ((c.registerA + value +
            (if statusContains c.status StatusFlags.CARRY then 1 else 0)) % 256 ^^^
            c.registerA) &&& 0x80 ≠ 0)))
        StatusFlags.ZERO
        (decide ((c.registerA + value +
          (if statusContains c.status StatusFlags.CARRY then 1 else 0)) % 256 = 0)))
        StatusFlags.NEGATIVE
        (decide ((c.registerA + value +
          (if statusContains c.status StatusFlags.CARRY then 1 else 0)) % 256 &&&
            0b10000000 ≠ 0)) := by
  simp only [CPU.addToRegA, CPU.updateZeroAndNegativeFlags, apply_ite CPU.status,
    ite_statusSet]

/-- C4: for every accumulator, operand and incoming carry, `add_to_reg_a`
(the ADC core) leaves the accumulator at `(A + M + C) mod 256`, sets CARRY
iff the exact sum exceeds `0xFF`, sets OVERFLOW iff
`(M ^ R) & (R ^ A) & 0x80 ≠ 0` — equivalently iff `A` and `M` share a sign
bit that differs from `R`'s — and updates ZERO and NEGATIVE from the
result. -/
theorem adc_contract (c : CPU) (value : Nat) (hs : c.status < 256) :
    AdcContract c value := by
  obtain ⟨h1, h2, h3, h4⟩ := chain_contains
    (decide (0xFF < c.registerA + value +
      (if statusContains c.status StatusFlags.CARRY then 1 else 0)))
    (decide ((value ^^^ (c.registerA + value +
        (if statusContains c.status StatusFlags.CARRY then 1 else 0)) % 256) &&&
      ((c.registerA + value +
        (if statusContains c.status StatusFlags.CARRY then 1 else 0)) % 256 ^^^
        c.registerA) &&& 0x80 ≠ 0))
    (decide ((c.registerA + value +
      (if statusContains c.status StatusFlags.CARRY then 1 else 0)) % 256 = 0))
    (decide ((c.registerA + value +
      (if statusContains c.status StatusFlags.CARRY then 1 else 0)) % 256 &&&
        0b10000000 ≠ 0))
    c.status hs
  refine ⟨addToRegA_registerA c value, ?_, ?_, ?_, ?_, ?_⟩
  · rw [addToRegA_status, h1]
    simp
  · rw [addToRegA_status, h2]
    simp
  · rw [addToRegA_status, h2]
    simp only [decide_eq_true_eq]
    exact overflow_sign_iff c.registerA value _
  · rw [addToRegA_status, h3]
    simp
  · rw [addToRegA_status, h4]
    simp

theorem adc_contract_witness :
    cpuA.status < 256 ∧ AdcContract cpuA 0x50 :=
  ⟨by decide, adc_contract cpuA 0x50 (by decide)⟩

set_option maxRecDepth 4000 in
theorem neg_sub_one_eq_xor : ∀ v, v < 256 → ((256 - v) % 256 + 255) % 256 = v ^^^ 255 := by
  decide

/-- C5: for any state and any `u8` operand, the SBC core
`sub_from_reg_a(M)` is literally the ADC core applied to the bitwise
complement of `M` (`(-M) - 1 mod 256 = ~M`), so with CARRY set it produces
exactly the same accumulator and status flags. -/
theorem sbc_eq_adc_complement (c : CPU) (value : Nat) (hv : value < 256)
    (_hcarry : statusContains c.status StatusFlags.CARRY = true) :
    c.subFromRegA value = c.addToRegA (value ^^^ 0xFF) := by
  rw [CPU.subFromRegA, neg_sub_one_eq_xor value hv]

theorem sbc_eq_adc_complement_witness :
    (0x20 : Nat) < 256 ∧ statusContains cpuS.status StatusFlags.CARRY = true ∧
      cpuS.subFromRegA 0x20 = cpuS.addToRegA (0x20 ^^^ 0xFF) :=
  ⟨by decide, by decide, sbc_eq_adc_complement cpuS 0x20 (by decide) (by decide)⟩

/-! ## The CPU run loop and BRK (claim C3) -/

theorem busMemRead_ram (b : Bus) (address : Nat) (h : address ≤ 0x1FFF) :
    b.memRead address = some (b.cpuVram ((address &&& 0x07FF) &&& 0x07FF), b) := by
  simp [Bus.memRead, busMemReadGo, h]

theorem brk_sets_break (c : CPU) :
    statusContains (CPU.brk c).status StatusFlags.BREAK = true := by
  have h := or_pow_and_pow c.status 4
  norm_num at h
  simp [CPU.brk, statusInsert, statusContains, StatusFlags.BREAK, h]

theorem brk_bus_eq (c : CPU) : (CPU.brk c).bus = c.bus := rfl

/-- C3 (amended): in the `run_with_callback` loop the BREAK test comes
*before* `bus.tick(opcode.cycles)`, so the iteration that executes BRK
(fetched here from RAM) exits the loop without advancing the bus cycle
counter at all. -/
theorem runStep_brk_exits_without_tick (c : CPU)
    (hnmi : c.bus.ppu.nmiInterrupt = none)
    (hpc : c.programCounter ≤ 0x1FFF)
    (hcode : c.bus.cpuVram ((c.programCounter &&& 0x07FF) &&& 0x07FF) = 0) :
    c.runStep.map (fun r => (r.1.bus.cycles, r.2)) = some (c.bus.cycles, true) := by
  simp [CPU.runStep, Bus.pollNmiStatus, NesPPU.pollNmiInterrupt, hnmi, CPU.memRead,
    busMemRead_ram _ _ hpc, hcode, opcodeMap, CPU.dispatch, brk_sets_break, brk_bus_eq]

theorem runStep_brk_exits_without_tick_witness :
    cpu0.bus.ppu.nmiInterrupt = none ∧ cpu0.programCounter ≤ 0x1FFF ∧
      cpu0.runStep.map (fun r => (r.1.bus.cycles, r.2)) = some (cpu0.bus.cycles, true) :=
  ⟨rfl, by decide, runStep_brk_exits_without_tick cpu0 rfl (by decide) rfl⟩

/-- C3 (counterexample to the claim as stated): running the machine whose
memory holds only `0x00` (BRK) exits the run loop with the bus cycle
counter still at 0, although BRK's base cycle count in the dispatch table
is 7 — the claimed `bus.tick(base_cycles)` before the BREAK test never
happens. -/
theorem run_brk_counterexample :
    (CPU.run 5 cpu0).map (fun c => c.bus.cycles) = some 0 ∧
    (opcodeMap 0x00).map OpCode.cycles = some 7 ∧ (0 : Nat) ≠ 7 :=
  ⟨rfl, rfl, by decide⟩

end RustNES
